import Mathlib

/-!
Verification of the state-tracking / extension-dispatch layer of the Magnum
OpenGL wrapper library, shallowly embedded in Lean 4.

The embedding models the desktop-GL build configuration (the configuration in
which `MAGNUM_TARGET_GLES`, `MAGNUM_TARGET_GLES2` and `MAGNUM_TARGET_WEBGL`
are all undefined), which is the configuration in which every guarded code
path of the claims exists.  GL driver calls are modelled as a trace: each
embedded operation returns, besides its updated state, the list of driver
calls it issued, in order.
-/

namespace Magnum

/-- The buffer binding-target hints, exactly the enumerators of
`Buffer::TargetHint` as listed (desktop-GL configuration) in the
`operator<<(Debug&, Buffer::TargetHint)` switch of `src/Magnum/Buffer.cpp`. -/
inductive TargetHint where
  | Array
  | AtomicCounter
  | CopyRead
  | CopyWrite
  | DispatchIndirect
  | DrawIndirect
  | ElementArray
  | PixelPack
  | PixelUnpack
  | ShaderStorage
  | Texture
  | TransformFeedback
  | Uniform
deriving DecidableEq, Repr

/-- Modelled from the spec: `Implementation/BufferState.h` is not among the
sources; the spec describes the cache it holds as keeping the
"currently-bound buffer per target".  `TargetCount` is the number of slots of
that per-target cache: one slot per `TargetHint` enumerator (13 of them in
the desktop configuration) plus the unused slot 0, as witnessed by the loops
in `Buffer.cpp` that run `for(i = 1; i != TargetCount; ++i)` over all
targets. -/
def TargetCount : Nat := 14

/-- Modelled from the spec: the `BufferState::targetForIndex` table
(`Implementation/BufferState.h`, not among the sources) mapping a cache slot
index (minus one) back to its target.  It enumerates each `TargetHint` once,
in declaration order. -/
def targetForIndex : List TargetHint :=
  [.Array, .AtomicCounter, .CopyRead, .CopyWrite, .DispatchIndirect,
   .DrawIndirect, .ElementArray, .PixelPack, .PixelUnpack, .ShaderStorage,
   .Texture, .TransformFeedback, .Uniform]

/-- Modelled from the spec: `BufferState::indexForTarget`
(`Implementation/BufferState.h`, not among the sources), the inverse of
`targetForIndex`: each target's cache slot index, in `[1, TargetCount)`. -/
def indexForTarget : TargetHint → Nat
  | .Array => 1
  | .AtomicCounter => 2
  | .CopyRead => 3
  | .CopyWrite => 4
  | .DispatchIndirect => 5
  | .DrawIndirect => 6
  | .ElementArray => 7
  | .PixelPack => 8
  | .PixelUnpack => 9
  | .ShaderStorage => 10
  | .Texture => 11
  | .TransformFeedback => 12
  | .Uniform => 13

/-- One GL driver call, as recorded in the call trace of an embedded
operation. -/
inductive GLCall where
  | glBindBuffer (target : TargetHint) (id : Nat)
  | glDeleteBuffers (id : Nat)
  | glGetIntegerv (pname : Nat)
  | glBufferData (target : TargetHint) (size : Int) (usage : Nat)
  | glNamedBufferData (id : Nat) (size : Int) (usage : Nat)
  | glBufferSubData (target : TargetHint) (offset size : Int)
  | glNamedBufferSubData (id : Nat) (offset size : Int)
  | glCopyBufferSubData (readTarget writeTarget : TargetHint)
      (readOffset writeOffset size : Int)
  | glCopyNamedBufferSubData (readId writeId : Nat)
      (readOffset writeOffset size : Int)
  | glMapBuffer (target : TargetHint) (access : Nat)
  | glMapNamedBuffer (id : Nat) (access : Nat)
  | glGetBufferParameteriv (target : TargetHint) (pname : Nat)
  | glGetNamedBufferParameteriv (id : Nat) (pname : Nat)
deriving DecidableEq, Repr

/-- A `Buffer` object: its GL name `_id`, its `_targetHint`, and the two
`ObjectFlag`s the modelled code reads or writes (`Created`,
`DeleteOnDestruction`). -/
structure Buffer where
  id : Nat
  targetHint : TargetHint
  created : Bool
  deleteOnDestruction : Bool
deriving DecidableEq, Repr

/-- The context's buffer state relevant here: the `bindings` array of
`Implementation::BufferState`, one GL id per cache slot (`TargetCount`
slots, slot 0 unused, 0 meaning nothing bound). -/
structure BufferCtx where
  bindings : List Nat
deriving DecidableEq, Repr

/-- The id `bindInternal` computes from its `buffer` pointer argument:
`buffer ? buffer->_id : 0`. -/
def optBufferId : Option Buffer → Nat
  | some b => b.id
  | none => 0

/-- `Buffer::bindInternal(target, buffer)` from `src/Magnum/Buffer.cpp`:
look up the cache slot for `target`; if it already holds the (possibly null)
buffer's id, do nothing; otherwise store the id in the slot, mark the buffer
created and issue `glBindBuffer`.  Returns the updated context state, the
updated buffer and the trace of driver calls. -/
def bindInternal (ctx : BufferCtx) (target : TargetHint)
    (buffer : Option Buffer) : BufferCtx × Option Buffer × List GLCall :=
  let id := optBufferId buffer
  let idx := indexForTarget target
  if ctx.bindings.getD idx 0 = id then
    (ctx, buffer, [])
  else
    (⟨ctx.bindings.set idx id⟩,
     buffer.map (fun b => { b with created := true }),
     [GLCall.glBindBuffer target id])

/-- The linear search of `Buffer::bindSomewhereInternal`: the first cache
slot index in `[1, TargetCount)` whose entry equals `id`, if any
(`for(i = 1; i != TargetCount; ++i) if(bindings[i] == _id) ...`). -/
def firstBoundIndex (ctx : BufferCtx) (id : Nat) : Option Nat :=
  (List.range' 1 (TargetCount - 1)).find? (fun i => ctx.bindings.getD i 0 = id)

/-- `Buffer::bindSomewhereInternal(hint)` from `src/Magnum/Buffer.cpp`: if
the buffer is already bound to `hint`, return `hint`; else return the first
target the buffer is bound to; else bind it to `hint` (one `glBindBuffer`,
cache slot updated, `Created` flag set) and return `hint`.  Returns the
updated context, updated buffer, chosen target and driver-call trace. -/
def bindSomewhereInternal (ctx : BufferCtx) (b : Buffer) (hint : TargetHint) :
    BufferCtx × Buffer × TargetHint × List GLCall :=
  if ctx.bindings.getD (indexForTarget hint) 0 = b.id then
    (ctx, b, hint, [])
  else
    match firstBoundIndex ctx b.id with
    | some i => (ctx, b, targetForIndex.getD (i - 1) .Array, [])
    | none =>
        (⟨ctx.bindings.set (indexForTarget hint) b.id⟩,
         { b with created := true }, hint,
         [GLCall.glBindBuffer hint b.id])

/-- `Buffer::~Buffer()` from `src/Magnum/Buffer.cpp`: if the buffer was
moved out (`_id == 0`) or does not delete on destruction, do nothing;
otherwise zero every cache slot in `[1, TargetCount)` holding its id and
issue `glDeleteBuffers`. -/
def bufferDestructor (ctx : BufferCtx) (b : Buffer) : BufferCtx × List GLCall :=
  if b.id = 0 ∨ b.deleteOnDestruction = false then (ctx, [])
  else
    (⟨(List.range ctx.bindings.length).map
        (fun i => if 1 ≤ i ∧ i < TargetCount ∧ ctx.bindings.getD i 0 = b.id
                  then 0 else ctx.bindings.getD i 0)⟩,
     [GLCall.glDeleteBuffers b.id])

/-- `Buffer::dataImplementationDefault` from `src/Magnum/Buffer.cpp`:
`glBufferData(GLenum(bindSomewhereInternal(_targetHint)), size, data, usage)`. -/
def dataImplementationDefault (ctx : BufferCtx) (b : Buffer) (size : Int)
    (usage : Nat) : BufferCtx × Buffer × List GLCall :=
  let r := bindSomewhereInternal ctx b b.targetHint
  (r.1, r.2.1, r.2.2.2 ++ [GLCall.glBufferData r.2.2.1 size usage])

/-- `Buffer::dataImplementationDSA`: `glNamedBufferData(_id, size, data,
usage)`, no binding. -/
def dataImplementationDSA (ctx : BufferCtx) (b : Buffer) (size : Int)
    (usage : Nat) : BufferCtx × Buffer × List GLCall :=
  (ctx, b, [GLCall.glNamedBufferData b.id size usage])

/-- `Buffer::subDataImplementationDefault`:
`glBufferSubData(GLenum(bindSomewhereInternal(_targetHint)), offset, size,
data)`. -/
def subDataImplementationDefault (ctx : BufferCtx) (b : Buffer)
    (offset size : Int) : BufferCtx × Buffer × List GLCall :=
  let r := bindSomewhereInternal ctx b b.targetHint
  (r.1, r.2.1, r.2.2.2 ++ [GLCall.glBufferSubData r.2.2.1 offset size])

/-- `Buffer::subDataImplementationDSA`: `glNamedBufferSubData(_id, offset,
size, data)`, no binding. -/
def subDataImplementationDSA (ctx : BufferCtx) (b : Buffer)
    (offset size : Int) : BufferCtx × Buffer × List GLCall :=
  (ctx, b, [GLCall.glNamedBufferSubData b.id offset size])

/-- `Buffer::copyImplementationDefault`: bind the read buffer somewhere with
hint `CopyRead`, the write buffer with hint `CopyWrite`, then
`glCopyBufferSubData` on the two chosen targets. -/
def copyImplementationDefault (ctx : BufferCtx) (read write : Buffer)
    (readOffset writeOffset size : Int) :
    BufferCtx × Buffer × Buffer × List GLCall :=
  let r1 := bindSomewhereInternal ctx read .CopyRead
  let r2 := bindSomewhereInternal r1.1 write .CopyWrite
  (r2.1, r1.2.1, r2.2.1,
   r1.2.2.2 ++ r2.2.2.2 ++
     [GLCall.glCopyBufferSubData r1.2.2.1 r2.2.2.1 readOffset writeOffset size])

/-- `Buffer::copyImplementationDSA`: `glCopyNamedBufferSubData(read._id,
write._id, ...)`, no binding. -/
def copyImplementationDSA (ctx : BufferCtx) (read write : Buffer)
    (readOffset writeOffset size : Int) : BufferCtx × List GLCall :=
  (ctx,
   [GLCall.glCopyNamedBufferSubData read.id write.id
      readOffset writeOffset size])

/-- `Buffer::mapImplementationDefault`:
`glMapBuffer(GLenum(bindSomewhereInternal(_targetHint)), access)`. -/
def mapImplementationDefault (ctx : BufferCtx) (b : Buffer) (access : Nat) :
    BufferCtx × Buffer × List GLCall :=
  let r := bindSomewhereInternal ctx b b.targetHint
  (r.1, r.2.1, r.2.2.2 ++ [GLCall.glMapBuffer r.2.2.1 access])

/-- `Buffer::mapImplementationDSA`: `glMapNamedBuffer(_id, access)`, no
binding. -/
def mapImplementationDSA (ctx : BufferCtx) (b : Buffer) (access : Nat) :
    BufferCtx × Buffer × List GLCall :=
  (ctx, b, [GLCall.glMapNamedBuffer b.id access])

/-- `Buffer::getParameterImplementationDefault`:
`glGetBufferParameteriv(GLenum(bindSomewhereInternal(_targetHint)), value,
data)`. -/
def getParameterImplementationDefault (ctx : BufferCtx) (b : Buffer)
    (pname : Nat) : BufferCtx × Buffer × List GLCall :=
  let r := bindSomewhereInternal ctx b b.targetHint
  (r.1, r.2.1, r.2.2.2 ++ [GLCall.glGetBufferParameteriv r.2.2.1 pname])

/-- `Buffer::getParameterImplementationDSA`:
`glGetNamedBufferParameteriv(_id, value, data)`, no binding. -/
def getParameterImplementationDSA (ctx : BufferCtx) (b : Buffer)
    (pname : Nat) : BufferCtx × Buffer × List GLCall :=
  (ctx, b, [GLCall.glGetNamedBufferParameteriv b.id pname])

/-- The OpenGL extensions the `RendererState` constructor queries, plus
`Other` standing for any extension it does not query. -/
inductive GLExtension where
  | ARB_ES2_compatibility
  | ARB_robustness
  | EXT_robustness
  | Other
deriving DecidableEq, Repr

/-- The two candidate implementations of `Renderer::clearDepthf` dispatch
(`clearDepthfImplementationES` / `clearDepthfImplementationDefault`). -/
inductive ClearDepthfImpl where
  | ES
  | Default
deriving DecidableEq, Repr

/-- The two candidate implementations of `Renderer::graphicsResetStatus`
dispatch (`graphicsResetStatusImplementationRobustness` /
`graphicsResetStatusImplementationDefault`). -/
inductive GraphicsResetStatusImpl where
  | Robustness
  | Default
deriving DecidableEq, Repr

/-- The part of `Context` the `RendererState` constructor reads: the
extension-support query `isExtensionSupported`. -/
structure GLContext where
  supported : GLExtension → Bool

/-- The two dispatch pointers assigned by the `RendererState` constructor. -/
structure RendererState where
  clearDepthfImplementation : ClearDepthfImpl
  graphicsResetStatusImplementation : GraphicsResetStatusImpl
deriving DecidableEq, Repr

/-- `RendererState::RendererState(Context&, std::vector<std::string>&)` from
`src/Magnum/Implementation/RendererState.cpp`; `gles` selects the
`MAGNUM_TARGET_GLES` preprocessor configuration.  On desktop, the
`ARB::ES2_compatibility` string is appended and the ES `clearDepthf` variant
chosen exactly when that extension is supported, otherwise the default
variant; on ES the ES variant is chosen unconditionally with no append.
Then the robustness extension (`ARB` on desktop, `EXT` on ES) is queried:
if supported its string is appended and the robustness
`graphicsResetStatus` variant chosen, else the default variant.  Returns
the assigned dispatch pointers and the extensions list after the appends. -/
def rendererStateCtor (gles : Bool) (context : GLContext)
    (extensions : List GLExtension) : RendererState × List GLExtension :=
  let step1 :=
    if gles = false then
      if context.supported .ARB_ES2_compatibility then
        (ClearDepthfImpl.ES, extensions ++ [GLExtension.ARB_ES2_compatibility])
      else (ClearDepthfImpl.Default, extensions)
    else (ClearDepthfImpl.ES, extensions)
  let step2 :=
    if gles = false then
      if context.supported .ARB_robustness then
        (GraphicsResetStatusImpl.Robustness,
         step1.2 ++ [GLExtension.ARB_robustness])
      else (GraphicsResetStatusImpl.Default, step1.2)
    else
      if context.supported .EXT_robustness then
        (GraphicsResetStatusImpl.Robustness,
         step1.2 ++ [GLExtension.EXT_robustness])
      else (GraphicsResetStatusImpl.Default, step1.2)
  (⟨step1.1, step2.1⟩, step2.2)

def GL_MIN_MAP_BUFFER_ALIGNMENT : Nat := 0x90BC
def GL_MAX_ATOMIC_COUNTER_BUFFER_BINDINGS : Nat := 0x92DC
def GL_MAX_SHADER_STORAGE_BUFFER_BINDINGS : Nat := 0x90DD
def GL_UNIFORM_BUFFER_OFFSET_ALIGNMENT : Nat := 0x8A34
def GL_SHADER_STORAGE_BUFFER_OFFSET_ALIGNMENT : Nat := 0x90DF
def GL_MAX_UNIFORM_BUFFER_BINDINGS : Nat := 0x8A2F

/-- The common shape of the cached limit queries of `src/Magnum/Buffer.cpp`:
if the prerequisite extension/version is unsupported, return the constant
fallback without touching the driver or the cached state slot; otherwise
read the cached slot, issuing `glGetIntegerv` to (re)fill it exactly when it
still holds the 0 sentinel.  Arguments: the fallback constant, the
`glGetIntegerv` pname, whether the prerequisite is supported, the value the
driver would report, and the cached slot; result: the returned value, the
slot after the call, and the driver-call trace. -/
def cachedLimitQuery (fallback : Int) (pname : Nat) (supported : Bool)
    (driver value : Int) : Int × Int × List GLCall :=
  if supported = false then (fallback, value, [])
  else if value = 0 then (driver, driver, [GLCall.glGetIntegerv pname])
  else (value, value, [])

/-- `Buffer::minMapAlignment`: fallback 1 unless `ARB::map_buffer_alignment`
is supported; cached in `BufferState::minMapAlignment`. -/
def minMapAlignment : Bool → Int → Int → Int × Int × List GLCall :=
  cachedLimitQuery 1 GL_MIN_MAP_BUFFER_ALIGNMENT

/-- `Buffer::maxAtomicCounterBindings`: fallback 0 unless
`ARB::shader_atomic_counters` is supported. -/
def maxAtomicCounterBindings : Bool → Int → Int → Int × Int × List GLCall :=
  cachedLimitQuery 0 GL_MAX_ATOMIC_COUNTER_BUFFER_BINDINGS

/-- `Buffer::maxShaderStorageBindings`: fallback 0 unless
`ARB::shader_storage_buffer_object` is supported. -/
def maxShaderStorageBindings : Bool → Int → Int → Int × Int × List GLCall :=
  cachedLimitQuery 0 GL_MAX_SHADER_STORAGE_BUFFER_BINDINGS

/-- `Buffer::uniformOffsetAlignment`: fallback 1 unless
`ARB::uniform_buffer_object` is supported. -/
def uniformOffsetAlignment : Bool → Int → Int → Int × Int × List GLCall :=
  cachedLimitQuery 1 GL_UNIFORM_BUFFER_OFFSET_ALIGNMENT

/-- `Buffer::shaderStorageOffsetAlignment`: fallback 1 unless
`ARB::shader_storage_buffer_object` is supported. -/
def shaderStorageOffsetAlignment : Bool → Int → Int → Int × Int × List GLCall :=
  cachedLimitQuery 1 GL_SHADER_STORAGE_BUFFER_OFFSET_ALIGNMENT

/-- `Buffer::maxUniformBindings`: fallback 0 unless
`ARB::uniform_buffer_object` is supported. -/
def maxUniformBindings : Bool → Int → Int → Int × Int × List GLCall :=
  cachedLimitQuery 0 GL_MAX_UNIFORM_BUFFER_BINDINGS

/-- The data fields of `MeshView` from `src/Magnum/MeshView.h` (desktop
configuration): the referenced original mesh (tracked by identity) and the
vertex/index range fields. -/
structure MeshView where
  original : Nat
  count : Int
  baseVertex : Int
  instanceCount : Int
  baseInstance : Nat
  indexOffset : Int
  indexStart : Nat
  indexEnd : Nat
deriving DecidableEq, Repr

/-- `MeshView::MeshView(Mesh&)` from `src/Magnum/MeshView.h`: count 0, base
vertex 0, instance count 1, base instance 0, index offset 0, index start 0,
index end 0. -/
def MeshView.ofMesh (original : Nat) : MeshView :=
  ⟨original, 0, 0, 1, 0, 0, 0, 0⟩

/-- `MeshView::setCount`: `_count = count; return *this;`. -/
def MeshView.setCount (v : MeshView) (count : Int) : MeshView :=
  { v with count := count }

/-- `MeshView::setBaseVertex`: `_baseVertex = baseVertex; return *this;`. -/
def MeshView.setBaseVertex (v : MeshView) (baseVertex : Int) : MeshView :=
  { v with baseVertex := baseVertex }

/-- `MeshView::setInstanceCount`: `_instanceCount = count; return *this;`. -/
def MeshView.setInstanceCount (v : MeshView) (count : Int) : MeshView :=
  { v with instanceCount := count }

/-- `MeshView::setBaseInstance`: `_baseInstance = baseInstance;
return *this;`. -/
def MeshView.setBaseInstance (v : MeshView) (baseInstance : Nat) : MeshView :=
  { v with baseInstance := baseInstance }

/-- `MeshView::setIndexRange(Int, UnsignedInt, UnsignedInt)` from
`src/Magnum/MeshView.h`: it calls the one-argument overload
`setIndexRange(Int)` — declared in the header but defined in
`MeshView.cpp`, which is not among the sources, so that overload is kept
abstract as the parameter `g` — and then writes `_indexStart` and
`_indexEnd`. -/
def MeshView.setIndexRange (g : MeshView → Int → MeshView) (v : MeshView)
    (first : Int) (start end_ : Nat) : MeshView :=
  let v' := g v first
  { v' with indexStart := start, indexEnd := end_ }

end Magnum

namespace Magnum

lemma indexForTarget_lt (t : TargetHint) : indexForTarget t < TargetCount := by
  cases t <;> decide

lemma indexForTarget_targetForIndex :
    ∀ i ∈ List.range' 1 (TargetCount - 1),
      indexForTarget (targetForIndex.getD (i - 1) .Array) = i := by
  decide

lemma getD_set_self (l : List Nat) (i a : Nat) (h : i < l.length) :
    (l.set i a).getD i 0 = a := by
  simp [List.getElem?_set_self h]

lemma getD_map_range (n : Nat) (f : Nat → Nat) (i : Nat) (h : i < n) :
    ((List.range n).map f).getD i 0 = f i := by
  simp [List.getElem?_map, List.getElem?_range h]

/-- C1: for every buffer pointer and target hint, if the cached binding slot
for the target already holds the buffer's id (0 for a null pointer), then
`Buffer::bindInternal` issues no `glBindBuffer` call and leaves the binding
cache unchanged; otherwise it writes the id into the slot for the target and
issues exactly one `glBindBuffer` call. -/
theorem bindInternal_cache_elision (ctx : BufferCtx) (target : TargetHint)
    (buffer : Option Buffer) :
    (ctx.bindings.getD (indexForTarget target) 0 = optBufferId buffer →
      (bindInternal ctx target buffer).1 = ctx ∧
      (bindInternal ctx target buffer).2.2 = []) ∧
    (ctx.bindings.getD (indexForTarget target) 0 ≠ optBufferId buffer →
      (bindInternal ctx target buffer).1.bindings =
        ctx.bindings.set (indexForTarget target) (optBufferId buffer) ∧
      (bindInternal ctx target buffer).2.2 =
        [GLCall.glBindBuffer target (optBufferId buffer)]) := by
  constructor
  · intro h
    simp only [bindInternal]
    rw [if_pos h]
    exact ⟨rfl, rfl⟩
  · intro h
    simp only [bindInternal]
    rw [if_neg h]
    exact ⟨rfl, rfl⟩

/-- Witness for `bindInternal_cache_elision` at a concrete input: an empty
cache, target `Array`, a buffer with id 5 (the cache slot holds 0 ≠ 5, so
the "otherwise" branch applies). -/
theorem bindInternal_cache_elision_witness :
    ((⟨List.replicate 14 0⟩ : BufferCtx).bindings.getD
        (indexForTarget .Array) 0 ≠
      optBufferId (some ⟨5, .Array, false, true⟩)) ∧
    ((bindInternal ⟨List.replicate 14 0⟩ .Array
        (some ⟨5, .Array, false, true⟩)).1.bindings =
      (List.replicate 14 0).set (indexForTarget .Array)
        (optBufferId (some ⟨5, .Array, false, true⟩)) ∧
     (bindInternal ⟨List.replicate 14 0⟩ .Array
        (some ⟨5, .Array, false, true⟩)).2.2 =
      [GLCall.glBindBuffer .Array (optBufferId (some ⟨5, .Array, false, true⟩))]) :=
  ⟨by decide,
   (bindInternal_cache_elision ⟨List.replicate 14 0⟩ .Array
      (some ⟨5, .Array, false, true⟩)).2 (by decide)⟩

/-- C4: `Buffer::bindSomewhereInternal(hint)` returns a target whose cache
slot holds the buffer's id on exit; if already bound to the hint it returns
the hint with no driver call and no cache change; else, if some cached slot
holds the buffer's id, it returns the target of that slot with no driver
call and no cache change; else it binds the buffer to the hint (one
`glBindBuffer`, the hint's slot set to the id) and returns the hint. -/
theorem bindSomewhereInternal_spec (ctx : BufferCtx) (b : Buffer)
    (hint : TargetHint) (hlen : ctx.bindings.length = TargetCount) :
    (bindSomewhereInternal ctx b hint).1.bindings.getD
        (indexForTarget (bindSomewhereInternal ctx b hint).2.2.1) 0 = b.id ∧
    (ctx.bindings.getD (indexForTarget hint) 0 = b.id →
      bindSomewhereInternal ctx b hint = (ctx, b, hint, [])) ∧
    (ctx.bindings.getD (indexForTarget hint) 0 ≠ b.id →
      (∃ i, 1 ≤ i ∧ i < TargetCount ∧ ctx.bindings.getD i 0 = b.id) →
      (bindSomewhereInternal ctx b hint).1 = ctx ∧
      (bindSomewhereInternal ctx b hint).2.2.2 = []) ∧
    (ctx.bindings.getD (indexForTarget hint) 0 ≠ b.id →
      (∀ i, 1 ≤ i → i < TargetCount → ctx.bindings.getD i 0 ≠ b.id) →
      (bindSomewhereInternal ctx b hint).1.bindings =
        ctx.bindings.set (indexForTarget hint) b.id ∧
      (bindSomewhereInternal ctx b hint).2.2.1 = hint ∧
      (bindSomewhereInternal ctx b hint).2.2.2 =
        [GLCall.glBindBuffer hint b.id]) := by
  by_cases hb : ctx.bindings.getD (indexForTarget hint) 0 = b.id
  · have hres : bindSomewhereInternal ctx b hint = (ctx, b, hint, []) := by
      simp only [bindSomewhereInternal]
      rw [if_pos hb]
    refine ⟨?_, fun _ => hres, fun hn _ => absurd hb hn, fun hn _ => absurd hb hn⟩
    rw [hres]
    exact hb
  · rcases hfind : firstBoundIndex ctx b.id with _ | i
    · have hres : bindSomewhereInternal ctx b hint =
          (⟨ctx.bindings.set (indexForTarget hint) b.id⟩,
           { b with created := true }, hint,
           [GLCall.glBindBuffer hint b.id]) := by
        simp only [bindSomewhereInternal]
        rw [if_neg hb, hfind]
      have hset : (ctx.bindings.set (indexForTarget hint) b.id).getD
          (indexForTarget hint) 0 = b.id :=
        getD_set_self _ _ _ (by rw [hlen]; exact indexForTarget_lt hint)
      refine ⟨by rw [hres]; exact hset, fun h => absurd h hb, ?_,
        fun _ _ => by rw [hres]; exact ⟨rfl, rfl, rfl⟩⟩
      rintro _ ⟨i, h1, h2, h3⟩
      exfalso
      have hnone := (List.find?_eq_none).1 hfind i
        (List.mem_range'_1.2 ⟨h1, by omega⟩)
      simp only [decide_eq_true_eq] at hnone
      exact hnone h3
    · have hres : bindSomewhereInternal ctx b hint =
          (ctx, b, targetForIndex.getD (i - 1) .Array, []) := by
        simp only [bindSomewhereInternal]
        rw [if_neg hb, hfind]
      have hmem : i ∈ List.range' 1 (TargetCount - 1) :=
        List.mem_of_find?_eq_some hfind
      have hpred : ctx.bindings.getD i 0 = b.id := by
        have := List.find?_some hfind
        simpa using this
      refine ⟨?_, fun h => absurd h hb,
        fun _ _ => by rw [hres]; exact ⟨rfl, rfl⟩, ?_⟩
      · rw [hres]
        show ctx.bindings.getD
          (indexForTarget (targetForIndex.getD (i - 1) .Array)) 0 = b.id
        rw [indexForTarget_targetForIndex i hmem]
        exact hpred
      · intro _ hall
        have hb1 := List.mem_range'_1.1 hmem
        exact absurd hpred (hall i hb1.1 (by omega))

/-- Witness for `bindSomewhereInternal_spec` at a concrete input: an empty
cache of length `TargetCount`, a buffer with id 5 and hint `Array`; the
returned target's cache slot holds 5. -/
theorem bindSomewhereInternal_spec_witness :
    (List.replicate 14 0 : List Nat).length = TargetCount ∧
    (bindSomewhereInternal ⟨List.replicate 14 0⟩ ⟨5, .Array, false, true⟩
        .Array).1.bindings.getD
      (indexForTarget (bindSomewhereInternal ⟨List.replicate 14 0⟩
        ⟨5, .Array, false, true⟩ .Array).2.2.1) 0 = 5 :=
  ⟨by decide,
   (bindSomewhereInternal_spec ⟨List.replicate 14 0⟩ ⟨5, .Array, false, true⟩
      .Array (by decide)).1⟩

/-- C8: after the destructor of a buffer that still owns its GL object runs
(non-zero id, `DeleteOnDestruction` set), no per-target cache slot with
index in `[1, TargetCount)` still holds the buffer's id — every such slot
that held it is reset to 0, other slots are untouched, and `glDeleteBuffers`
is issued; a moved-from buffer (id 0) or one not deleting on destruction
leaves both the cache and the GL object untouched. -/
theorem bufferDestructor_spec (ctx : BufferCtx) (b : Buffer)
    (hlen : ctx.bindings.length = TargetCount) :
    (b.id ≠ 0 → b.deleteOnDestruction = true →
      (∀ i, 1 ≤ i → i < TargetCount →
        (bufferDestructor ctx b).1.bindings.getD i 0 ≠ b.id) ∧
      (∀ i, 1 ≤ i → i < TargetCount → ctx.bindings.getD i 0 = b.id →
        (bufferDestructor ctx b).1.bindings.getD i 0 = 0) ∧
      (∀ i, 1 ≤ i → i < TargetCount → ctx.bindings.getD i 0 ≠ b.id →
        (bufferDestructor ctx b).1.bindings.getD i 0 =
          ctx.bindings.getD i 0) ∧
      (bufferDestructor ctx b).2 = [GLCall.glDeleteBuffers b.id]) ∧
    ((b.id = 0 ∨ b.deleteOnDestruction = false) →
      bufferDestructor ctx b = (ctx, [])) := by
  constructor
  · intro hid hdel
    have hcond : ¬(b.id = 0 ∨ b.deleteOnDestruction = false) := by
      rintro (h | h)
      · exact hid h
      · rw [hdel] at h
        cases h
    have hres : bufferDestructor ctx b =
        (⟨(List.range ctx.bindings.length).map
            (fun i => if 1 ≤ i ∧ i < TargetCount ∧
                ctx.bindings.getD i 0 = b.id
              then 0 else ctx.bindings.getD i 0)⟩,
         [GLCall.glDeleteBuffers b.id]) := by
      simp only [bufferDestructor]
      rw [if_neg hcond]
    have hmap : ∀ i, i < TargetCount →
        (bufferDestructor ctx b).1.bindings.getD i 0 =
          if 1 ≤ i ∧ i < TargetCount ∧ ctx.bindings.getD i 0 = b.id
          then 0 else ctx.bindings.getD i 0 := by
      intro i hi
      rw [hres]
      exact getD_map_range _ _ i (by rw [hlen]; exact hi)
    refine ⟨?_, ?_, ?_, by rw [hres]⟩
    · intro i h1 h2
      rw [hmap i h2]
      split_ifs with h
      · exact fun h0 => hid h0.symm
      · exact fun hc => h ⟨h1, h2, hc⟩
    · intro i h1 h2 hc
      rw [hmap i h2, if_pos ⟨h1, h2, hc⟩]
    · intro i h1 h2 hc
      rw [hmap i h2, if_neg (fun h => hc h.2.2)]
  · intro h
    simp only [bufferDestructor]
    rw [if_pos h]

/-- Witness for `bufferDestructor_spec` at a concrete input: a cache holding
id 5 in slot 1, a buffer with id 5 that deletes on destruction; after the
destructor, slot 1 no longer holds 5. -/
theorem bufferDestructor_spec_witness :
    (([0, 5, 0, 0, 0, 0, 0, 0, 0, 0, 0, 0, 0, 0] : List Nat).length =
      TargetCount) ∧
    ((5 : Nat) ≠ 0) ∧
    (bufferDestructor ⟨[0, 5, 0, 0, 0, 0, 0, 0, 0, 0, 0, 0, 0, 0]⟩
        ⟨5, .Array, true, true⟩).1.bindings.getD 1 0 ≠ 5 ∧
    (bufferDestructor ⟨[0, 5, 0, 0, 0, 0, 0, 0, 0, 0, 0, 0, 0, 0]⟩
        ⟨5, .Array, true, true⟩).2 = [GLCall.glDeleteBuffers 5] :=
  ⟨by decide, by decide,
   ((bufferDestructor_spec ⟨[0, 5, 0, 0, 0, 0, 0, 0, 0, 0, 0, 0, 0, 0]⟩
        ⟨5, .Array, true, true⟩ (by decide)).1 (by decide) rfl).1 1
      (by decide) (by decide),
   ((bufferDestructor_spec ⟨[0, 5, 0, 0, 0, 0, 0, 0, 0, 0, 0, 0, 0, 0]⟩
        ⟨5, .Array, true, true⟩ (by decide)).1 (by decide) rfl).2.2.2⟩

/-- C5: each DSA buffer-operation implementation works through the object's
GL id alone — it leaves the per-target binding cache unchanged and its whole
trace is the single `glNamed*`/`glCopyNamed*`/`glGetNamed*` call on the id —
whereas each corresponding default implementation first binds the buffer and
so may modify the binding cache (witnessed by concrete inputs where the
cache changes). -/
theorem dsa_implementations_cache_frame :
    (∀ ctx b size usage,
      (dataImplementationDSA ctx b size usage).1 = ctx ∧
      (dataImplementationDSA ctx b size usage).2.2 =
        [GLCall.glNamedBufferData b.id size usage]) ∧
    (∀ ctx b offset size,
      (subDataImplementationDSA ctx b offset size).1 = ctx ∧
      (subDataImplementationDSA ctx b offset size).2.2 =
        [GLCall.glNamedBufferSubData b.id offset size]) ∧
    (∀ ctx read write readOffset writeOffset size,
      (copyImplementationDSA ctx read write
        readOffset writeOffset size).1 = ctx ∧
      (copyImplementationDSA ctx read write
        readOffset writeOffset size).2 =
        [GLCall.glCopyNamedBufferSubData read.id write.id
          readOffset writeOffset size]) ∧
    (∀ ctx b access,
      (mapImplementationDSA ctx b access).1 = ctx ∧
      (mapImplementationDSA ctx b access).2.2 =
        [GLCall.glMapNamedBuffer b.id access]) ∧
    (∀ ctx b pname,
      (getParameterImplementationDSA ctx b pname).1 = ctx ∧
      (getParameterImplementationDSA ctx b pname).2.2 =
        [GLCall.glGetNamedBufferParameteriv b.id pname]) ∧
    (∃ ctx b size usage,
      (dataImplementationDefault ctx b size usage).1 ≠ ctx) ∧
    (∃ ctx b offset size,
      (subDataImplementationDefault ctx b offset size).1 ≠ ctx) ∧
    (∃ ctx read write readOffset writeOffset size,
      (copyImplementationDefault ctx read write
        readOffset writeOffset size).1 ≠ ctx) ∧
    (∃ ctx b access, (mapImplementationDefault ctx b access).1 ≠ ctx) ∧
    (∃ ctx b pname,
      (getParameterImplementationDefault ctx b pname).1 ≠ ctx) := by
  refine ⟨fun _ _ _ _ => ⟨rfl, rfl⟩, fun _ _ _ _ => ⟨rfl, rfl⟩,
    fun _ _ _ _ _ _ => ⟨rfl, rfl⟩, fun _ _ _ => ⟨rfl, rfl⟩,
    fun _ _ _ => ⟨rfl, rfl⟩, ?_, ?_, ?_, ?_, ?_⟩
  · exact ⟨⟨List.replicate 14 0⟩, ⟨5, .Array, false, true⟩, 0, 0, by decide⟩
  · exact ⟨⟨List.replicate 14 0⟩, ⟨5, .Array, false, true⟩, 0, 0, by decide⟩
  · exact ⟨⟨List.replicate 14 0⟩, ⟨5, .Array, false, true⟩,
      ⟨7, .Array, false, true⟩, 0, 0, 0, by decide⟩
  · exact ⟨⟨List.replicate 14 0⟩, ⟨5, .Array, false, true⟩, 0, by decide⟩
  · exact ⟨⟨List.replicate 14 0⟩, ⟨5, .Array, false, true⟩, 0, by decide⟩

lemma cachedLimitQuery_hit (f : Int) (p : Nat) (d v : Int) (h : v ≠ 0) :
    cachedLimitQuery f p true d v = (v, v, []) := by
  simp [cachedLimitQuery, h]

lemma cachedLimitQuery_memoSpec (f : Int) (p : Nat) :
    (∀ d v, (cachedLimitQuery f p true d v).2.1 =
      (cachedLimitQuery f p true d v).1) ∧
    (∀ d d' v, (cachedLimitQuery f p true d v).1 ≠ 0 →
      cachedLimitQuery f p true d' (cachedLimitQuery f p true d v).1 =
        ((cachedLimitQuery f p true d v).1,
         (cachedLimitQuery f p true d v).1, [])) ∧
    (∀ d, cachedLimitQuery f p true d 0 =
      (d, d, [GLCall.glGetIntegerv p])) := by
  refine ⟨?_, ?_, ?_⟩
  · intro d v
    by_cases h : v = 0 <;> simp [cachedLimitQuery, h]
  · intro d d' v h
    exact cachedLimitQuery_hit f p d' _ h
  · intro d
    simp [cachedLimitQuery]

/-- C3: every limit query whose prerequisite is unsupported returns its
constant fallback — 0 for `maxAtomicCounterBindings`,
`maxShaderStorageBindings` and `maxUniformBindings`, 1 for
`minMapAlignment`, `uniformOffsetAlignment` and
`shaderStorageOffsetAlignment` — with no `glGetIntegerv` driver call and
the cached slot untouched. -/
theorem limit_queries_fallback (driver value : Int) :
    minMapAlignment false driver value = (1, value, []) ∧
    maxAtomicCounterBindings false driver value = (0, value, []) ∧
    maxShaderStorageBindings false driver value = (0, value, []) ∧
    maxUniformBindings false driver value = (0, value, []) ∧
    uniformOffsetAlignment false driver value = (1, value, []) ∧
    shaderStorageOffsetAlignment false driver value = (1, value, []) :=
  ⟨rfl, rfl, rfl, rfl, rfl, rfl⟩

/-- C9: each cached limit query is memoized with 0 as the unset sentinel:
the returned value is what is stored; once a non-zero value is stored every
later call (any driver value) returns it with no `glGetIntegerv`; and a call
on the 0 sentinel stores and returns the driver value, issuing exactly one
`glGetIntegerv` (so a driver report of 0 causes the query to be re-issued on
every call). -/
theorem limit_queries_memoized :
    ((∀ d v, (minMapAlignment true d v).2.1 =
        (minMapAlignment true d v).1) ∧
     (∀ d d' v, (minMapAlignment true d v).1 ≠ 0 →
        minMapAlignment true d' (minMapAlignment true d v).1 =
          ((minMapAlignment true d v).1,
           (minMapAlignment true d v).1, [])) ∧
     (∀ d, minMapAlignment true d 0 =
        (d, d, [GLCall.glGetIntegerv GL_MIN_MAP_BUFFER_ALIGNMENT]))) ∧
    ((∀ d v, (maxAtomicCounterBindings true d v).2.1 =
        (maxAtomicCounterBindings true d v).1) ∧
     (∀ d d' v, (maxAtomicCounterBindings true d v).1 ≠ 0 →
        maxAtomicCounterBindings true d'
            (maxAtomicCounterBindings true d v).1 =
          ((maxAtomicCounterBindings true d v).1,
           (maxAtomicCounterBindings true d v).1, [])) ∧
     (∀ d, maxAtomicCounterBindings true d 0 =
        (d, d,
         [GLCall.glGetIntegerv GL_MAX_ATOMIC_COUNTER_BUFFER_BINDINGS]))) ∧
    ((∀ d v, (maxShaderStorageBindings true d v).2.1 =
        (maxShaderStorageBindings true d v).1) ∧
     (∀ d d' v, (maxShaderStorageBindings true d v).1 ≠ 0 →
        maxShaderStorageBindings true d'
            (maxShaderStorageBindings true d v).1 =
          ((maxShaderStorageBindings true d v).1,
           (maxShaderStorageBindings true d v).1, [])) ∧
     (∀ d, maxShaderStorageBindings true d 0 =
        (d, d,
         [GLCall.glGetIntegerv GL_MAX_SHADER_STORAGE_BUFFER_BINDINGS]))) ∧
    ((∀ d v, (uniformOffsetAlignment true d v).2.1 =
        (uniformOffsetAlignment true d v).1) ∧
     (∀ d d' v, (uniformOffsetAlignment true d v).1 ≠ 0 →
        uniformOffsetAlignment true d'
            (uniformOffsetAlignment true d v).1 =
          ((uniformOffsetAlignment true d v).1,
           (uniformOffsetAlignment true d v).1, [])) ∧
     (∀ d, uniformOffsetAlignment true d 0 =
        (d, d, [GLCall.glGetIntegerv GL_UNIFORM_BUFFER_OFFSET_ALIGNMENT]))) ∧
    ((∀ d v, (shaderStorageOffsetAlignment true d v).2.1 =
        (shaderStorageOffsetAlignment true d v).1) ∧
     (∀ d d' v, (shaderStorageOffsetAlignment true d v).1 ≠ 0 →
        shaderStorageOffsetAlignment true d'
            (shaderStorageOffsetAlignment true d v).1 =
          ((shaderStorageOffsetAlignment true d v).1,
           (shaderStorageOffsetAlignment true d v).1, [])) ∧
     (∀ d, shaderStorageOffsetAlignment true d 0 =
        (d, d,
         [GLCall.glGetIntegerv
            GL_SHADER_STORAGE_BUFFER_OFFSET_ALIGNMENT]))) ∧
    ((∀ d v, (maxUniformBindings true d v).2.1 =
        (maxUniformBindings true d v).1) ∧
     (∀ d d' v, (maxUniformBindings true d v).1 ≠ 0 →
        maxUniformBindings true d' (maxUniformBindings true d v).1 =
          ((maxUniformBindings true d v).1,
           (maxUniformBindings true d v).1, [])) ∧
     (∀ d, maxUniformBindings true d 0 =
        (d, d, [GLCall.glGetIntegerv GL_MAX_UNIFORM_BUFFER_BINDINGS]))) :=
  ⟨cachedLimitQuery_memoSpec 1 GL_MIN_MAP_BUFFER_ALIGNMENT,
   cachedLimitQuery_memoSpec 0 GL_MAX_ATOMIC_COUNTER_BUFFER_BINDINGS,
   cachedLimitQuery_memoSpec 0 GL_MAX_SHADER_STORAGE_BUFFER_BINDINGS,
   cachedLimitQuery_memoSpec 1 GL_UNIFORM_BUFFER_OFFSET_ALIGNMENT,
   cachedLimitQuery_memoSpec 1 GL_SHADER_STORAGE_BUFFER_OFFSET_ALIGNMENT,
   cachedLimitQuery_memoSpec 0 GL_MAX_UNIFORM_BUFFER_BINDINGS⟩

/-- Witness for `limit_queries_memoized`: with a stored value 3 (from a
first call with driver value 3 on the 0 sentinel), a later call with a
different driver value returns 3 with no driver call. -/
theorem limit_queries_memoized_witness :
    ((minMapAlignment true 3 0).1 ≠ 0) ∧
    minMapAlignment true 7 (minMapAlignment true 3 0).1 =
      ((minMapAlignment true 3 0).1, (minMapAlignment true 3 0).1, []) :=
  ⟨by decide, limit_queries_memoized.1.2.1 3 7 0 (by decide)⟩

/-- C2: the `RendererState` constructor assigns each dispatched operation
exactly one implementation from the extension flags:
`clearDepthfImplementation` is the ES variant iff ES2 compatibility applies
(always on ES, `ARB::ES2_compatibility` on desktop) and the default variant
otherwise; `graphicsResetStatusImplementation` is the robustness variant iff
the robustness extension (`ARB` on desktop, `EXT` on ES) is supported and
the default variant otherwise. -/
theorem rendererState_dispatch_selection (gles : Bool) (context : GLContext)
    (extensions : List GLExtension) :
    ((rendererStateCtor gles context extensions).1.clearDepthfImplementation =
        ClearDepthfImpl.ES ↔
      (gles = true ∨ context.supported .ARB_ES2_compatibility = true)) ∧
    ((rendererStateCtor gles context extensions).1.clearDepthfImplementation =
        ClearDepthfImpl.Default ↔
      (gles = false ∧ context.supported .ARB_ES2_compatibility = false)) ∧
    ((rendererStateCtor gles context
          extensions).1.graphicsResetStatusImplementation =
        GraphicsResetStatusImpl.Robustness ↔
      (if gles = false then context.supported .ARB_robustness
       else context.supported .EXT_robustness) = true) ∧
    ((rendererStateCtor gles context
          extensions).1.graphicsResetStatusImplementation =
        GraphicsResetStatusImpl.Default ↔
      (if gles = false then context.supported .ARB_robustness
       else context.supported .EXT_robustness) = false) := by
  cases gles <;>
    cases h1 : context.supported .ARB_ES2_compatibility <;>
    cases h2 : context.supported .ARB_robustness <;>
    cases h3 : context.supported .EXT_robustness <;>
    simp [rendererStateCtor, h1, h2, h3]

/-- C6: implementation selection is a deterministic function of the queried
extension-support booleans alone — two constructor runs (same build
configuration) whose contexts agree on `ARB::ES2_compatibility`,
`ARB::robustness` and `EXT::robustness` produce identical dispatch
pointers, whatever else (other extensions, the incoming extensions lists)
differs. -/
theorem rendererState_dispatch_deterministic (gles : Bool)
    (c1 c2 : GLContext) (e1 e2 : List GLExtension)
    (hES2 : c1.supported .ARB_ES2_compatibility =
      c2.supported .ARB_ES2_compatibility)
    (hARB : c1.supported .ARB_robustness = c2.supported .ARB_robustness)
    (hEXT : c1.supported .EXT_robustness = c2.supported .EXT_robustness) :
    (rendererStateCtor gles c1 e1).1 = (rendererStateCtor gles c2 e2).1 := by
  cases gles <;>
    cases hx : c1.supported .ARB_ES2_compatibility <;>
    cases hy : c1.supported .ARB_robustness <;>
    cases hz : c1.supported .EXT_robustness <;>
    simp [rendererStateCtor, hx, hy, hz, hES2 ▸ hx, hARB ▸ hy, hEXT ▸ hz]

/-- Witness for `rendererState_dispatch_deterministic`: two desktop contexts
agreeing on the three queried extensions but disagreeing on another
extension and fed different extension lists yield the same dispatch
pointers. -/
theorem rendererState_dispatch_deterministic_witness :
    ((⟨fun _ => true⟩ : GLContext).supported .ARB_ES2_compatibility =
      (⟨fun e => match e with | .Other => false | _ => true⟩ :
        GLContext).supported .ARB_ES2_compatibility) ∧
    ((⟨fun _ => true⟩ : GLContext).supported .ARB_robustness =
      (⟨fun e => match e with | .Other => false | _ => true⟩ :
        GLContext).supported .ARB_robustness) ∧
    ((⟨fun _ => true⟩ : GLContext).supported .EXT_robustness =
      (⟨fun e => match e with | .Other => false | _ => true⟩ :
        GLContext).supported .EXT_robustness) ∧
    (rendererStateCtor false ⟨fun _ => true⟩ []).1 =
      (rendererStateCtor false
        ⟨fun e => match e with | .Other => false | _ => true⟩
        [GLExtension.Other]).1 :=
  ⟨rfl, rfl, rfl,
   rendererState_dispatch_deterministic false ⟨fun _ => true⟩
     ⟨fun e => match e with | .Other => false | _ => true⟩ []
     [GLExtension.Other] rfl rfl rfl⟩

/-- C7: the constructor appends an extension's identifier to the passed-in
list exactly when it selects that extension's code path: the mode's
robustness string iff the robustness variant was chosen, and on desktop the
`ARB::ES2_compatibility` string iff the ES `clearDepthf` variant was
chosen (never on ES); the list receives no other entries — every appended
entry is one of those two identifiers of the current mode, and none is
appended twice, so the appended entries are exactly the identifiers of the
selected code paths. -/
theorem rendererState_extension_negotiation (gles : Bool)
    (context : GLContext) (extensions : List GLExtension) :
    ∃ appended,
      (rendererStateCtor gles context extensions).2 =
        extensions ++ appended ∧
      ((if gles = true then GLExtension.EXT_robustness
        else GLExtension.ARB_robustness) ∈ appended ↔
        (rendererStateCtor gles context
            extensions).1.graphicsResetStatusImplementation =
          GraphicsResetStatusImpl.Robustness) ∧
      (gles = false →
        (GLExtension.ARB_ES2_compatibility ∈ appended ↔
          (rendererStateCtor gles context
              extensions).1.clearDepthfImplementation =
            ClearDepthfImpl.ES)) ∧
      (gles = true → GLExtension.ARB_ES2_compatibility ∉ appended) ∧
      appended.Nodup ∧
      (∀ e ∈ appended, e = GLExtension.ARB_ES2_compatibility ∨
        e = (if gles = true then GLExtension.EXT_robustness
             else GLExtension.ARB_robustness)) := by
  cases gles
  · cases h1 : context.supported .ARB_ES2_compatibility <;>
      cases h2 : context.supported .ARB_robustness
    · exact ⟨[], by simp [rendererStateCtor, h1, h2]⟩
    · exact ⟨[GLExtension.ARB_robustness],
        by simp [rendererStateCtor, h1, h2]⟩
    · exact ⟨[GLExtension.ARB_ES2_compatibility],
        by simp [rendererStateCtor, h1, h2]⟩
    · exact ⟨[GLExtension.ARB_ES2_compatibility, GLExtension.ARB_robustness],
        by simp [rendererStateCtor, h1, h2]⟩
  · cases h3 : context.supported .EXT_robustness
    · exact ⟨[], by simp [rendererStateCtor, h3]⟩
    · exact ⟨[GLExtension.EXT_robustness],
        by simp [rendererStateCtor, h3]⟩

/-- Witness for `rendererState_extension_negotiation` at a concrete input:
a desktop context supporting every extension, starting from an empty list. -/
theorem rendererState_extension_negotiation_witness :
    ∃ appended,
      (rendererStateCtor false ⟨fun _ => true⟩ []).2 = [] ++ appended ∧
      ((if (false : Bool) = true then GLExtension.EXT_robustness
        else GLExtension.ARB_robustness) ∈ appended ↔
        (rendererStateCtor false ⟨fun _ => true⟩
            []).1.graphicsResetStatusImplementation =
          GraphicsResetStatusImpl.Robustness) ∧
      ((false : Bool) = false →
        (GLExtension.ARB_ES2_compatibility ∈ appended ↔
          (rendererStateCtor false ⟨fun _ => true⟩
              []).1.clearDepthfImplementation = ClearDepthfImpl.ES)) ∧
      ((false : Bool) = true →
        GLExtension.ARB_ES2_compatibility ∉ appended) ∧
      appended.Nodup ∧
      (∀ e ∈ appended, e = GLExtension.ARB_ES2_compatibility ∨
        e = (if (false : Bool) = true then GLExtension.EXT_robustness
             else GLExtension.ARB_robustness)) :=
  rendererState_extension_negotiation false ⟨fun _ => true⟩ []

/-- C10: a newly constructed `MeshView` has count 0, base vertex 0,
instance count 1, base instance 0, index offset 0, index start 0 and index
end 0; each setter writes only its own field, leaves every other field
unchanged and returns the resulting view itself; and
`setIndexRange(first, start, end)` equals `setIndexRange(first)` (the
abstracted one-argument overload `g`) followed by setting index start and
index end to the given values. -/
theorem meshView_ctor_and_setters :
    (∀ o : Nat, (MeshView.ofMesh o).original = o ∧
      (MeshView.ofMesh o).count = 0 ∧
      (MeshView.ofMesh o).baseVertex = 0 ∧
      (MeshView.ofMesh o).instanceCount = 1 ∧
      (MeshView.ofMesh o).baseInstance = 0 ∧
      (MeshView.ofMesh o).indexOffset = 0 ∧
      (MeshView.ofMesh o).indexStart = 0 ∧
      (MeshView.ofMesh o).indexEnd = 0) ∧
    (∀ (v : MeshView) (c : Int), (v.setCount c).count = c ∧
      (v.setCount c).original = v.original ∧
      (v.setCount c).baseVertex = v.baseVertex ∧
      (v.setCount c).instanceCount = v.instanceCount ∧
      (v.setCount c).baseInstance = v.baseInstance ∧
      (v.setCount c).indexOffset = v.indexOffset ∧
      (v.setCount c).indexStart = v.indexStart ∧
      (v.setCount c).indexEnd = v.indexEnd) ∧
    (∀ (v : MeshView) (c : Int), (v.setBaseVertex c).baseVertex = c ∧
      (v.setBaseVertex c).original = v.original ∧
      (v.setBaseVertex c).count = v.count ∧
      (v.setBaseVertex c).instanceCount = v.instanceCount ∧
      (v.setBaseVertex c).baseInstance = v.baseInstance ∧
      (v.setBaseVertex c).indexOffset = v.indexOffset ∧
      (v.setBaseVertex c).indexStart = v.indexStart ∧
      (v.setBaseVertex c).indexEnd = v.indexEnd) ∧
    (∀ (v : MeshView) (c : Int), (v.setInstanceCount c).instanceCount = c ∧
      (v.setInstanceCount c).original = v.original ∧
      (v.setInstanceCount c).count = v.count ∧
      (v.setInstanceCount c).baseVertex = v.baseVertex ∧
      (v.setInstanceCount c).baseInstance = v.baseInstance ∧
      (v.setInstanceCount c).indexOffset = v.indexOffset ∧
      (v.setInstanceCount c).indexStart = v.indexStart ∧
      (v.setInstanceCount c).indexEnd = v.indexEnd) ∧
    (∀ (v : MeshView) (c : Nat), (v.setBaseInstance c).baseInstance = c ∧
      (v.setBaseInstance c).original = v.original ∧
      (v.setBaseInstance c).count = v.count ∧
      (v.setBaseInstance c).baseVertex = v.baseVertex ∧
      (v.setBaseInstance c).instanceCount = v.instanceCount ∧
      (v.setBaseInstance c).indexOffset = v.indexOffset ∧
      (v.setBaseInstance c).indexStart = v.indexStart ∧
      (v.setBaseInstance c).indexEnd = v.indexEnd) ∧
    (∀ (g : MeshView → Int → MeshView) (v : MeshView) (first : Int)
        (start end_ : Nat),
      MeshView.setIndexRange g v first start end_ =
        { g v first with indexStart := start, indexEnd := end_ }) :=
  ⟨fun _ => ⟨rfl, rfl, rfl, rfl, rfl, rfl, rfl, rfl⟩,
   fun _ _ => ⟨rfl, rfl, rfl, rfl, rfl, rfl, rfl, rfl⟩,
   fun _ _ => ⟨rfl, rfl, rfl, rfl, rfl, rfl, rfl, rfl⟩,
   fun _ _ => ⟨rfl, rfl, rfl, rfl, rfl, rfl, rfl, rfl⟩,
   fun _ _ => ⟨rfl, rfl, rfl, rfl, rfl, rfl, rfl, rfl⟩,
   fun _ _ _ _ _ => rfl⟩

end Magnum
